import Mathlib

/-!
Shallow embedding of `src/mod.ts` of the oxitools/option repository.

The TypeScript `Option<T>` class stores a single private slot `#value?: T`
and decides presence with the runtime predicate `isDefined` (a value is
defined iff it is neither `null` nor `undefined`).  We model a host value
of type `T | null | undefined` as `JSVal α`, the class as a one-field
structure over that slot, and every method by its source body.  Methods
that can throw (`expect`, `unwrap`, via the external `raise` helper) are
modelled as returning `Except String`, where `Except.error m` stands for a
thrown `Error` whose message is `m`.
-/

namespace OxiOption

variable {α β γ : Type}

/-- A host-language value slot: either one of the two native "missing"
sentinels (`undefined`, `null`) or a defined value of type `α`.  This
models the TypeScript type `T | null | undefined`. -/
inductive JSVal (α : Type) where
  | undef : JSVal α
  | null : JSVal α
  | val : α → JSVal α
deriving DecidableEq

/-- Modelled from the spec: the "is this value defined" predicate supplied
by the surrounding runtime (`isDefined` from `@oxi/core`, imported by
`src/mod.ts` but not part of this repository).  Per the spec's bridge
contract and the repository's tests, a value is defined iff it is neither
`null` nor `undefined`. -/
def JSVal.isDefined : JSVal α → Bool
  | JSVal.val _ => true
  | JSVal.null => false
  | JSVal.undef => false

/-- Source line 55: `const TRUE = () => true;` (JavaScript ignores the
argument, so the constant is used both as an `onSome` and an `onNone`
callback; we model it generically). -/
def TRUE : γ → Bool := fun _ => true

/-- Source line 56: `const FALSE = () => false;`. -/
def FALSE : γ → Bool := fun _ => false

/-- Source line 57: `const IDENTITY = <T>(value: T) => value;`. -/
def IDENTITY : γ → γ := fun value => value

/-- The `Option` class of `src/mod.ts` (lines 66-75): a single private
slot `#value?: T`.  The slot itself may hold a sentinel: the private
constructor simply stores whatever it is given, and `new Option()` (used
for `None`) leaves the slot `undefined`. -/
structure Option (α : Type) where
  value : JSVal α
deriving DecidableEq

/-- `Option.Some` (source lines 102-104): `return new Option(value);`.
A JavaScript caller may pass any host value, including the sentinels, so
the argument is a `JSVal α`. -/
def Option.Some (value : JSVal α) : Option α :=
  ⟨value⟩

/-- `Option.None` (source line 115): `new Option()`, i.e. the slot is left
`undefined`. -/
def Option.None : Option α :=
  ⟨JSVal.undef⟩

/-- `Option.match` (source lines 158-164):
`const value = this.#value; if (isDefined(value)) return onSome(value);
return onNone();` — the `isDefined` test and its type narrowing are
rendered as a pattern match on the slot.  Named `match'` because `match`
is a Lean keyword. -/
def Option.match' (o : Option α) (onSome : α → β) (onNone : Unit → β) : β :=
  match o.value with
  | JSVal.val value => onSome value
  | JSVal.null => onNone ()
  | JSVal.undef => onNone ()

/-- `Option.from` (source lines 131-133):
`return isDefined(value) ? Option.Some(value) : Option.None;`.
Named `from'` because `from` is a Lean keyword. -/
def Option.from' (value : JSVal α) : Option α :=
  if value.isDefined then Option.Some value else Option.None

/-- `Option.isSome` (source lines 176-178): `return this.match(TRUE, FALSE);`. -/
def Option.isSome (o : Option α) : Bool :=
  o.match' TRUE FALSE

/-- `Option.isSomeAnd` (source lines 191-193): `return this.match(predicate, FALSE);`. -/
def Option.isSomeAnd (o : Option α) (predicate : α → Bool) : Bool :=
  o.match' predicate FALSE

/-- `Option.isNone` (source lines 205-207): `return this.match(FALSE, TRUE);`. -/
def Option.isNone (o : Option α) : Bool :=
  o.match' FALSE TRUE

/-- `Option.expect` (source lines 221-223):
`return this.match(IDENTITY, () => raise(message));` — the external
`raise` helper throws an `Error` carrying `message`, modelled as
`Except.error message`; the successful branch is the same `IDENTITY`
lifted into `Except.ok`. -/
def Option.expect (o : Option α) (message : String) : Except String α :=
  o.match' (fun value => Except.ok (IDENTITY value)) (fun _ => Except.error message)

/-- `Option.unwrap` (source lines 236-238):
`return this.expect("called \x60Option.unwrap()\x60 on a \x60None\x60 value");`. -/
def Option.unwrap (o : Option α) : Except String α :=
  o.expect ("called `Option.unwrap()` on a `None` value")

/-- `Option.map` (source lines 282-287):
`return this.match((value) => Option.Some(mapper(value)), () => Option.None);`.
The mapper is a host function, so its result is a `JSVal β`. -/
def Option.map (o : Option α) (mapper : α → JSVal β) : Option β :=
  o.match' (fun value => Option.Some (mapper value)) (fun _ => Option.None)

/-- `Option.andThen` (source lines 374-376):
`return this.match(mapper, () => Option.None);`. -/
def Option.andThen (o : Option α) (mapper : α → Option β) : Option β :=
  o.match' mapper (fun _ => Option.None)

/-- `Option.filter` (source lines 389-394):
`if (this.isSomeAnd(predicate)) { return this; } return Option.None;`. -/
def Option.filter (o : Option α) (predicate : α → Bool) : Option α :=
  if o.isSomeAnd predicate then o else Option.None

/-- `Option.xor` (source lines 438-446):
`if (this.isSome() && other.isNone()) return this;
if (this.isNone() && other.isSome()) return other; return Option.None;`. -/
def Option.xor (o : Option α) (other : Option α) : Option α :=
  if o.isSome && other.isNone then o
  else if o.isNone && other.isSome then other
  else Option.None

/-- `Option.toJSON` (source lines 462-464):
`return this.match(IDENTITY, () => undefined);` — the return type is
`T | undefined`, i.e. a host value: the defined branch re-injects the
wrapped value into the host-value type, the absent branch is the
`undefined` sentinel. -/
def Option.toJSON (o : Option α) : JSVal α :=
  o.match' (fun value => JSVal.val (IDENTITY value)) (fun _ => JSVal.undef)

/-- A small concrete universe of JavaScript primitive values, used to
state the spec's examples about falsy-but-defined values (`0`, `""`,
`false`). -/
inductive Prim where
  | num : Int → Prim
  | str : String → Prim
  | bool : Bool → Prim
deriving DecidableEq

end OxiOption

namespace OxiOption

/-- C1 counterexample: the claim says `Some(v).isSome()` is `true` for
every value `v` including null-like values.  On the code, for `v = null`
the slot fails the `isDefined` test, so `Some(null).isSome()` is `false`
and `Some(null).unwrap()` throws the default `None` error instead of
returning `null`. -/
theorem c1_counterexample :
    ((Option.Some (JSVal.null : JSVal Prim)).isSome = false) ∧
    ((Option.Some (JSVal.null : JSVal Prim)).unwrap
      = Except.error ("called `Option.unwrap()` on a `None` value")) :=
  ⟨rfl, rfl⟩

/-- C1 (amended): for every *defined* value `v` (neither `null` nor
`undefined`), `Some(v).isSome()` is `true` and `Some(v).unwrap()` returns
`v`; falsy-but-defined values `0`, `""`, `false` are not special-cased.
The host sentinels `null` and `undefined`, wrapped through `Some`, are
special-cased by the `isDefined` presence test and behave as absent. -/
theorem c1_some_defined {α : Type} :
    (∀ a : α, ((Option.Some (JSVal.val a)).isSome = true)
      ∧ ((Option.Some (JSVal.val a)).unwrap = Except.ok a)) ∧
    ((Option.Some (JSVal.val (Prim.num 0))).isSome = true) ∧
    ((Option.Some (JSVal.val (Prim.str ""))).isSome = true) ∧
    ((Option.Some (JSVal.val (Prim.bool false))).isSome = true) ∧
    ((Option.Some (JSVal.null : JSVal α)).isSome = false) ∧
    ((Option.Some (JSVal.undef : JSVal α)).isSome = false) :=
  ⟨fun _ => ⟨rfl, rfl⟩, rfl, rfl, rfl, rfl, rfl⟩

/-- C2: `match` invokes exactly one branch according to the internal
state and returns its result verbatim.  The first conjunct shows every
`Option` is its slot (so the three slot shapes below are exhaustive).
When the slot is a defined value the result is `onSome value` and is
independent of the `onNone` argument; when the slot is undefined (the
`None` singleton) or null the result is `onNone ()` and is independent of
the `onSome` argument — the other branch is never invoked. -/
theorem c2_match {α β : Type} :
    (∀ o : Option α, o = Option.Some o.value) ∧
    (∀ (a : α) (f : α → β) (g g' : Unit → β),
      ((Option.Some (JSVal.val a)).match' f g = f a)
      ∧ ((Option.Some (JSVal.val a)).match' f g
          = (Option.Some (JSVal.val a)).match' f g')) ∧
    (∀ (f f' : α → β) (g : Unit → β),
      ((Option.None : Option α).match' f g = g ())
      ∧ ((Option.None : Option α).match' f g
          = (Option.None : Option α).match' f' g)) ∧
    (∀ (f f' : α → β) (g : Unit → β),
      ((Option.Some (JSVal.null : JSVal α)).match' f g = g ())
      ∧ ((Option.Some (JSVal.null : JSVal α)).match' f g
          = (Option.Some (JSVal.null : JSVal α)).match' f' g)) :=
  ⟨fun _ => rfl,
   fun _ _ _ _ => ⟨rfl, rfl⟩,
   fun _ _ _ => ⟨rfl, rfl⟩,
   fun _ _ _ => ⟨rfl, rfl⟩⟩

/-- C3: the bridge constructor `Option.from` returns `None` exactly on
the two host sentinels `null` and `undefined`, and returns
`Some(value)` for every other input; in particular the falsy values `0`,
`""` and `false` come back present. -/
theorem c3_from {α : Type} :
    (Option.from' (JSVal.null : JSVal α) = Option.None) ∧
    (Option.from' (JSVal.undef : JSVal α) = Option.None) ∧
    (∀ a : α, Option.from' (JSVal.val a) = Option.Some (JSVal.val a)) ∧
    ((Option.from' (JSVal.val (Prim.num 0))).isSome = true) ∧
    ((Option.from' (JSVal.val (Prim.str ""))).isSome = true) ∧
    ((Option.from' (JSVal.val (Prim.bool false))).isSome = true) :=
  ⟨rfl, rfl, fun _ => rfl, rfl, rfl, rfl⟩

/-- C4: functor law for `map`: `Some(v).map(f) = Some(f(v))` for every
defined value `v` and host mapper `f`, and `None.map(f) = None` with the
mapper never invoked (the result is independent of the mapper). -/
theorem c4_map {α β : Type} :
    (∀ (a : α) (f : α → JSVal β),
      (Option.Some (JSVal.val a)).map f = Option.Some (f a)) ∧
    (∀ f : α → JSVal β, (Option.None : Option α).map f = Option.None) ∧
    (∀ f g : α → JSVal β,
      (Option.None : Option α).map f = (Option.None : Option α).map g) :=
  ⟨fun _ _ => rfl, fun _ => rfl, fun _ _ => rfl⟩

/-- C5: monad left identity for `andThen`: `Some(v).andThen(f) = f(v)`
for every defined value `v` and Option-returning mapper `f`, and
`None.andThen(f) = None`. -/
theorem c5_andThen {α β : Type} :
    (∀ (a : α) (f : α → Option β),
      (Option.Some (JSVal.val a)).andThen f = f a) ∧
    (∀ f : α → Option β, (Option.None : Option α).andThen f = Option.None) :=
  ⟨fun _ _ => rfl, fun _ => rfl⟩

/-- C6: round-trip through the interop bridge (`toJSON` is the
bridge-out, `Option.from` the bridge-in): for every defined value `v`,
`from(toJSON(Some(v))) = Some(v)`, and `from(toJSON(None)) = None`. -/
theorem c6_roundtrip {α : Type} :
    (∀ a : α,
      Option.from' ((Option.Some (JSVal.val a)).toJSON) = Option.Some (JSVal.val a)) ∧
    (Option.from' ((Option.None : Option α).toJSON) = (Option.None : Option α)) :=
  ⟨fun _ => rfl, rfl⟩

/-- C7: `xor` is present iff exactly one side is present, and in that
case it is that present side; when both are present or both absent the
result is `None`. -/
theorem c7_xor {α : Type} (a b : Option α) :
    ((a.xor b).isSome = Bool.xor a.isSome b.isSome) ∧
    (a.isSome = true → b.isSome = false → a.xor b = a) ∧
    (a.isSome = false → b.isSome = true → a.xor b = b) ∧
    (a.isSome = true → b.isSome = true → a.xor b = Option.None) ∧
    (a.isSome = false → b.isSome = false → a.xor b = Option.None) := by
  obtain ⟨u⟩ := a
  obtain ⟨v⟩ := b
  cases u <;> cases v <;>
    simp [Option.xor, Option.isSome, Option.isNone, Option.match',
      TRUE, FALSE, Option.None, Option.Some]

/-- C7 witness: `xor` evaluated on all four concrete presence
combinations over `Int`. -/
theorem c7_xor_witness :
    ((Option.Some (JSVal.val (3 : Int))).xor Option.None
      = Option.Some (JSVal.val (3 : Int))) ∧
    ((Option.None : Option Int).xor (Option.Some (JSVal.val 4))
      = Option.Some (JSVal.val 4)) ∧
    ((Option.Some (JSVal.val (3 : Int))).xor (Option.Some (JSVal.val 4))
      = Option.None) ∧
    ((Option.None : Option Int).xor Option.None = Option.None) :=
  ⟨(c7_xor _ _).2.1 rfl rfl,
   (c7_xor _ _).2.2.1 rfl rfl,
   (c7_xor _ _).2.2.2.1 rfl rfl,
   (c7_xor _ _).2.2.2.2 rfl rfl⟩

/-- C8: `filter` is present iff the receiver is present and the
predicate holds of the wrapped value (that conjunction is exactly
`isSomeAnd`, whose value on `Some(v)` is `predicate v`); when it passes,
the result is the receiver itself unchanged, otherwise it is `None`. -/
theorem c8_filter {α : Type} (a : Option α) (p : α → Bool) :
    ((a.filter p).isSome = a.isSomeAnd p) ∧
    (∀ x : α, (Option.Some (JSVal.val x)).isSomeAnd p = p x) ∧
    (a.isSomeAnd p = true → a.filter p = a) ∧
    (a.isSomeAnd p = false → a.filter p = Option.None) := by
  obtain ⟨v⟩ := a
  refine ⟨?_, fun _ => rfl, ?_, ?_⟩
  · cases v with
    | val x =>
        cases hp : p x <;>
          simp [Option.filter, Option.isSomeAnd, Option.isSome, Option.match',
            TRUE, FALSE, Option.None, Option.Some, hp]
    | null => rfl
    | undef => rfl
  · intro h
    cases v with
    | val x =>
        have hp : p x = true := h
        simp [Option.filter, Option.isSomeAnd, Option.match', Option.Some, hp]
    | null => exact Bool.noConfusion h
    | undef => exact Bool.noConfusion h
  · intro h
    cases v with
    | val x =>
        have hp : p x = false := h
        simp [Option.filter, Option.isSomeAnd, Option.match', Option.None, hp]
    | null => rfl
    | undef => rfl

/-- C8 witness: `filter` on `Some(10)` with a passing and with a failing
predicate. -/
theorem c8_filter_witness :
    ((Option.Some (JSVal.val (10 : Int))).filter (fun v => v == 10)
      = Option.Some (JSVal.val (10 : Int))) ∧
    ((Option.Some (JSVal.val (10 : Int))).filter (fun v => v == 11)
      = Option.None) :=
  ⟨(c8_filter _ _).2.2.1 (by decide), (c8_filter _ _).2.2.2 (by decide)⟩

/-- C9: `expect(message)` returns the wrapped value on a present option
and fails with exactly the caller-supplied `message` on `None`; `unwrap`
is `expect` at the fixed library message.  In this embedding every other
operation is a total function: the `expect`/`unwrap` error is the only
failure the container itself produces. -/
theorem c9_expect {α : Type} :
    (∀ (a : α) (msg : String),
      (Option.Some (JSVal.val a)).expect msg = Except.ok a) ∧
    (∀ msg : String, (Option.None : Option α).expect msg = Except.error msg) ∧
    (∀ o : Option α,
      o.unwrap = o.expect ("called `Option.unwrap()` on a `None` value")) :=
  ⟨fun _ _ => rfl, fun _ => rfl, fun _ => rfl⟩

/-- C10: an option built as `Some(null)` or `Some(undefined)` (slot not
defined) is observationally a `None`: `isSome` is `false`, `unwrap`
throws the default error, `map`/`andThen`/`filter` return `None`, and
`match` invokes the `onNone` branch — indeed it agrees with `None` under
`match` at every pair of callbacks, and every public operation of the
class is defined through `match`. -/
theorem c10_some_sentinel {α : Type} (v : JSVal α) (h : v.isDefined = false) :
    ((Option.Some v).isSome = false) ∧
    ((Option.Some v).unwrap
      = Except.error ("called `Option.unwrap()` on a `None` value")) ∧
    (∀ (δ : Type) (f : α → JSVal δ), (Option.Some v).map f = Option.None) ∧
    (∀ (δ : Type) (g : α → Option δ), (Option.Some v).andThen g = Option.None) ∧
    (∀ p : α → Bool, (Option.Some v).filter p = Option.None) ∧
    (∀ (δ : Type) (f : α → δ) (g : Unit → δ), (Option.Some v).match' f g = g ()) ∧
    (∀ (δ : Type) (f : α → δ) (g : Unit → δ),
      (Option.Some v).match' f g = (Option.None : Option α).match' f g) := by
  cases v with
  | val a => simp [JSVal.isDefined] at h
  | null =>
      exact ⟨rfl, rfl, fun _ _ => rfl, fun _ _ => rfl, fun _ => rfl,
        fun _ _ _ => rfl, fun _ _ _ => rfl⟩
  | undef =>
      exact ⟨rfl, rfl, fun _ _ => rfl, fun _ _ => rfl, fun _ => rfl,
        fun _ _ _ => rfl, fun _ _ _ => rfl⟩

/-- C10 witness: the sentinel-slot behavior evaluated at `Some(null)`
over `Int`. -/
theorem c10_sentinel_witness :
    ((Option.Some (JSVal.null : JSVal Int)).isSome = false) ∧
    ((Option.Some (JSVal.null : JSVal Int)).filter (fun _ => true)
      = Option.None) ∧
    ((Option.Some (JSVal.null : JSVal Int)).match' (fun a => a) (fun _ => (0 : Int))
      = 0) :=
  ⟨(c10_some_sentinel JSVal.null rfl).1,
   (c10_some_sentinel JSVal.null rfl).2.2.2.2.1 (fun _ => true),
   (c10_some_sentinel JSVal.null rfl).2.2.2.2.2.1 Int (fun a => a) (fun _ => (0 : Int))⟩

end OxiOption
